import Mathlib

/-!
Verification model of `psychopy/app/jobs.py`: the `PipeReader` worker thread
that drains a subprocess pipe into a single-slot queue with an overflow
buffer, and the `Job` supervisor that owns the spawned process, the two
readers, and the poll/terminate lifecycle.

Modelling conventions:
- a chunk of pipe text (a Python `str`) is a `List Char`;
- the `Queue(maxsize=1)` of a reader is an `Option Chunk` (`some` = full);
- thread interleavings are explicit event lists (producer handles one line,
  consumer performs one `read()` call);
- external actions of the `Job` (process spawn and kill requests, reader stop
  signals, callbacks marshalled onto the GUI thread with `wx.CallAfter`) are
  collected in an `Effect` list; calls deferred with `wx.CallAfter` inside one
  `poll()` are delivered at the end of that poll, in FIFO order, matching the
  GUI event queue;
- a Python callable-or-None callback slot is modelled by a `Bool` recording
  whether a callback is registered.
-/

/-- Chunk of text read off a pipe (a Python `str`). -/
abbrev Chunk := List Char

/-- State of a `PipeReader` thread: the single-slot queue (`Queue(maxsize=1)`),
the overflow buffer `_overflowBuffer`, and the stop flag `_stopSignal`
(a `threading.Event`). -/
structure PipeReader where
  queue : Option Chunk
  overflowBuffer : List Chunk
  stopSignal : Bool
deriving DecidableEq

/-- State of a `PipeReader` right after `__init__`: empty queue, empty
overflow buffer, stop flag unset. -/
def PipeReader.init : PipeReader :=
  { queue := none, overflowBuffer := [], stopSignal := false }

/-- Property `PipeReader.isAvailable`: `self._queue.full()`; with maxsize 1,
full means the single slot is occupied. -/
def PipeReader.isAvailable (r : PipeReader) : Bool :=
  r.queue.isSome

/-- Method `PipeReader.read`: `self._queue.get_nowait()`, returning the empty
string when the queue raises `Empty`. Returns the chunk together with the
reader state after the call. -/
def PipeReader.read (r : PipeReader) : Chunk × PipeReader :=
  match r.queue with
  | some pipeBytes => (pipeBytes, { r with queue := none })
  | none => ([], r)

/-- Body of the for-loop in `PipeReader.run` for one `readline` result: if the
queue is not full, prepend the joined overflow backlog to the new bytes and
enqueue the result (clearing the overflow buffer); otherwise append the new
bytes to the overflow buffer. -/
def PipeReader.handleChunk (r : PipeReader) (pipeBytes : Chunk) : PipeReader :=
  if r.isAvailable then
    { r with overflowBuffer := r.overflowBuffer ++ [pipeBytes] }
  else
    if r.overflowBuffer.isEmpty then
      { r with queue := some pipeBytes }
    else
      { r with queue := some (r.overflowBuffer.flatten ++ pipeBytes),
               overflowBuffer := [] }

/-- Method `PipeReader.stop`: `self._stopSignal.set()`. -/
def PipeReader.stop (r : PipeReader) : PipeReader :=
  { r with stopSignal := true }

/-- Data held inside a reader and not yet returned by `read()`: the staged
chunk followed by the overflow chunks in arrival order. -/
def PipeReader.pending (r : PipeReader) : Chunk :=
  r.queue.getD [] ++ r.overflowBuffer.flatten

/-- One event of an interleaving of the worker thread with the consumer:
`produce c` is the worker handling one line `c` read off the pipe, `consume`
is one `read()` call by the consumer. The queue pair is single-producer
single-consumer, so every concurrent execution is one such interleaving. -/
inductive RWEvent where
  | produce (chunk : Chunk)
  | consume
deriving DecidableEq

/-- Run an interleaving of worker and consumer steps from a reader state,
collecting the value returned by every `read()` call in order. -/
def runTrace (r : PipeReader) : List RWEvent → PipeReader × List Chunk
  | [] => (r, [])
  | RWEvent.produce c :: es => runTrace (r.handleChunk c) es
  | RWEvent.consume :: es =>
    let rest := runTrace r.read.2 es
    (rest.1, r.read.1 :: rest.2)

/-- Chunks produced by the worker in a trace, in arrival order. -/
def producedOf : List RWEvent → List Chunk
  | [] => []
  | RWEvent.produce c :: es => c :: producedOf es
  | RWEvent.consume :: es => producedOf es

/-- Contents of the pipe as seen by the worker thread: lines not yet consumed
by `readline`, and whether the writing end has been closed (after which
`readline` returns the empty string immediately). -/
structure PipeSrc where
  lines : List Chunk
  eof : Bool
deriving DecidableEq

/-- Position of the worker thread inside `PipeReader.run`. -/
inductive WPhase where
  | reading
  | sleeping
  | checking
  | done
deriving DecidableEq

/-- Worker thread of `PipeReader.run` together with its pipe: `reading` is
inside `for pipeBytes in iter(self._fdpipe.readline, '')`, `sleeping` is
`time.sleep(self._pollSecs)`, `checking` is the `self._stopSignal.is_set()`
test, and `done` means the loop has exited and `self._fdpipe.close()` ran. -/
structure Worker where
  reader : PipeReader
  pipe : PipeSrc
  pipeClosed : Bool
  phase : WPhase
deriving DecidableEq

/-- One scheduling step of the worker thread in `PipeReader.run`. A `readline`
on an open pipe with no available data blocks, so in that situation the
worker makes no progress (the state is unchanged); `readline` returns the
empty string, ending the for-loop, only once the pipe has reached
end-of-file. -/
def Worker.step (w : Worker) : Worker :=
  match w.phase with
  | WPhase.reading =>
    match w.pipe.lines with
    | c :: rest =>
      { w with reader := w.reader.handleChunk c,
               pipe := { w.pipe with lines := rest } }
    | [] =>
      if w.pipe.eof then { w with phase := WPhase.sleeping }
      else w
  | WPhase.sleeping => { w with phase := WPhase.checking }
  | WPhase.checking =>
    if w.reader.stopSignal then
      { w with pipeClosed := true, phase := WPhase.done }
    else
      { w with phase := WPhase.reading }
  | WPhase.done => w

/-- Handle to a spawned subprocess (`subprocess.Popen`): the pid assigned at
spawn time and the exit code reported by `Popen.poll` / `Popen.returncode`
(`none` while the process is still running). -/
structure ProcHandle where
  pid : Int
  returncode : Option Int
deriving DecidableEq

/-- Externally visible action issued by a `Job`: a process spawn, a kill
request (`Popen.terminate`), a stop signal to one of the two readers, or a
callback invocation marshalled onto the GUI thread with `wx.CallAfter`. -/
inductive Effect where
  | spawnProc (pid : Int)
  | killProc (pid : Int)
  | stopStdoutReader
  | stopStderrReader
  | callInput (txt : Chunk)
  | callError (txt : Chunk)
  | callExit (pid : Option Int) (exitCode : Option Int)
deriving DecidableEq

/-- State of a `Job`: the stored command and flags, the process handle and pid
(`none` before `start()`), the poll interval and timer, the three callback
slots (modelled by whether a callback is registered), and the two owned
readers (`none` before `start()`). -/
structure Job where
  command : String
  flags : Int
  pid : Option Int
  process : Option ProcHandle
  pollMillis : Option Int
  pollTimerRunning : Bool
  inputCallback : Bool
  errorCallback : Bool
  terminateCallback : Bool
  stdoutReader : Option PipeReader
  stderrReader : Option PipeReader
deriving DecidableEq

/-- Constructor `Job.__init__`: stores the command, flags, callbacks and poll
interval; pid, process handle and both readers start absent and the poll
timer is not running. -/
def Job.init (command : String) (flags : Int)
    (terminateCallback inputCallback errorCallback : Bool)
    (pollMillis : Option Int) : Job :=
  { command := command, flags := flags, pid := none, process := none,
    pollMillis := pollMillis, pollTimerRunning := false,
    inputCallback := inputCallback, errorCallback := errorCallback,
    terminateCallback := terminateCallback,
    stdoutReader := none, stderrReader := none }

/-- Property `Job.isRunning`: `self._pid != 0 and self._process is not None`
(note that a pid of `None` compares unequal to `0` in Python). -/
def Job.isRunning (j : Job) : Bool :=
  (j.pid != some 0) && j.process.isSome

/-- Method `Job.start`: spawn the subprocess with `Popen` (the fresh pid
chosen by the operating system is a parameter of the model), record the pid,
create and start two fresh pipe readers, arm the poll timer when a poll
interval is configured, and return the pid. The code contains no guard
against a process that is already running: the old handle and readers are
simply overwritten. -/
def Job.start (j : Job) (newPid : Int) : (Job × List Effect) × Int :=
  let j1 := { j with process := some { pid := newPid, returncode := none },
                     pid := some newPid,
                     stdoutReader := some PipeReader.init,
                     stderrReader := some PipeReader.init }
  let j2 := if j1.pollMillis.isSome then { j1 with pollTimerRunning := true }
            else j1
  ((j2, [Effect.spawnProc newPid]), newPid)

/-- Method `Job.onTerminate`: stop the poll timer if it is running, then, when
a terminate callback is registered, schedule it (via `wx.CallAfter`) with the
current `self._pid` and the exit code. -/
def Job.onTerminate (j : Job) (exitCode : Option Int) : Job × List Effect :=
  let j1 := if j.pollTimerRunning then { j with pollTimerRunning := false }
            else j
  if j1.terminateCallback then (j1, [Effect.callExit j1.pid exitCode])
  else (j1, [])

/-- Method `Job.terminate`: a nop when not running; otherwise it stops the
poll timer, issues the kill request (`self._process.terminate()`; the
`signal` and `flags` arguments are unused because the `wx.Process.Kill` call
is commented out), signals both readers to stop, runs `onTerminate` with
`Popen.returncode` (still `None` right after an asynchronous terminate), and
finally clears process handle, pid and flags. The Python function returns
`None` on every path even though its docstring documents a `bool` result;
the model therefore returns `Option Bool` and always yields `none`. -/
def Job.terminate (j : Job) (signal : Int) (flags : Int) :
    (Job × List Effect) × Option Bool :=
  if ¬ j.isRunning then ((j, []), none)
  else
    let procPid := (j.process.map ProcHandle.pid).getD 0
    let retcode := j.process.bind ProcHandle.returncode
    let j1 := { j with pollTimerRunning := false }
    let j2 := { j1 with stdoutReader := j1.stdoutReader.map PipeReader.stop,
                        stderrReader := j1.stderrReader.map PipeReader.stop }
    let r3 := j2.onTerminate retcode
    let j4 := { r3.1 with process := none, pid := none, flags := 0 }
    ((j4, Effect.killProc procPid ::
          Effect.stopStdoutReader :: Effect.stopStderrReader :: r3.2), none)

/-- Method `Job.poll`: a nop when there is no process handle; otherwise it
reads `Popen.poll()` first, then drains staged stdout data to the input
callback, then staged stderr data to the error callback, and finally, when an
exit code was reported, runs `onTerminate` (scheduled with `wx.CallAfter` and
delivered here at the end of the same poll). In every state reachable through
`start()` both readers are present; the `getD` default only keeps the
function total on junk states. -/
def Job.poll (j : Job) : Job × List Effect :=
  match j.process with
  | none => (j, [])
  | some p =>
    let retCode := p.returncode
    let so := j.stdoutReader.getD PipeReader.init
    let j1 := if so.isAvailable then { j with stdoutReader := some so.read.2 }
              else j
    let effs1 := if so.isAvailable && j.inputCallback then
                   [Effect.callInput so.read.1]
                 else []
    let se := j1.stderrReader.getD PipeReader.init
    let j2 := if se.isAvailable then { j1 with stderrReader := some se.read.2 }
              else j1
    let effs2 := if se.isAvailable && j1.errorCallback then
                   [Effect.callError se.read.1]
                 else []
    match retCode with
    | some code =>
      let r3 := j2.onTerminate (some code)
      (r3.1, effs1 ++ effs2 ++ r3.2)
    | none => (j2, effs1 ++ effs2)

/-- Setter of the `command` property: raises (`Cannot set property command if
the subprocess is running!`) while running, otherwise stores the value. -/
def Job.setCommand (j : Job) (val : String) : Except String Job :=
  if j.isRunning then
    Except.error "Cannot set property command if the subprocess is running!"
  else
    Except.ok { j with command := val }

/-- Setter of the `flags` property: raises (`Cannot set property flags if the
subprocess is running!`) while running, otherwise stores the value. -/
def Job.setFlags (j : Job) (val : Int) : Except String Job :=
  if j.isRunning then
    Except.error "Cannot set property flags if the subprocess is running!"
  else
    Except.ok { j with flags := val }

/-- Repeated `read()` calls on a reader, collecting the returned chunks. -/
def PipeReader.readN (r : PipeReader) : Nat → PipeReader × List Chunk
  | 0 => (r, [])
  | n + 1 =>
    let rest := (r.read.2).readN n
    (rest.1, r.read.1 :: rest.2)

/-- Number of terminate-callback invocations recorded in an effect list. -/
def countExit (effs : List Effect) : Nat :=
  (effs.filter fun e =>
    match e with
    | Effect.callExit _ _ => true
    | _ => false).length

/-- Dispatch position of an effect inside one `poll()` call: stdout data
first, stderr data second, exit notification last. -/
def dispatchStage : Effect → Nat
  | Effect.callInput _ => 0
  | Effect.callError _ => 1
  | Effect.callExit _ _ => 2
  | _ => 3

/-- Concrete trace for the C1 counterexample: the worker stages `a`, the next
line `b` overflows while the slot is still full, then the consumer reads
twice. The overflow is only flushed when a further line arrives, so `b` is
never returned. -/
def loseTrace : List RWEvent :=
  [RWEvent.produce ['a'], RWEvent.produce ['b'],
   RWEvent.consume, RWEvent.consume]

theorem pending_handleChunk (r : PipeReader) (c : Chunk) :
    (r.handleChunk c).pending = r.pending ++ c := by
  unfold PipeReader.handleChunk PipeReader.pending PipeReader.isAvailable
  cases hq : r.queue with
  | none =>
    by_cases ho : r.overflowBuffer.isEmpty
    · simp_all [List.isEmpty_iff]
    · simp_all
  | some b => simp [hq, List.append_assoc]

theorem runTrace_pending (es : List RWEvent) : ∀ r : PipeReader,
    (runTrace r es).2.flatten ++ (runTrace r es).1.pending
      = r.pending ++ (producedOf es).flatten := by
  induction es with
  | nil => intro r; simp [runTrace, producedOf]
  | cons e es ih =>
    intro r
    cases e with
    | produce c =>
      simp only [runTrace, producedOf, List.flatten_cons]
      rw [ih, pending_handleChunk, List.append_assoc]
    | consume =>
      simp only [runTrace, producedOf, List.flatten_cons]
      rw [List.append_assoc, ih]
      cases hq : r.queue with
      | none => simp [PipeReader.read, hq, PipeReader.pending]
      | some b =>
        simp [PipeReader.read, hq, PipeReader.pending, List.append_assoc]

theorem flatten_filter_nonempty (l : List Chunk) :
    (l.filter fun b => !b.isEmpty).flatten = l.flatten := by
  induction l with
  | nil => rfl
  | cons b l ih =>
    by_cases hb : b.isEmpty
    · have hb' : b = [] := List.isEmpty_iff.mp hb
      simp [List.filter_cons, hb, hb', ih]
    · simp [List.filter_cons, hb, ih]

/-- C1 counterexample: in the trace `loseTrace` the worker produces `a` and
`b`, then the consumer reads twice; `read()` returns `a` and then the empty
chunk, because `b` sits in the overflow buffer and the overflow buffer is
only flushed when a further chunk is staged. The concatenation of the
non-empty `read()` results is `a`, not `ab`, refuting the claimed equality
for this interleaving. -/
theorem read_concat_counterexample :
    ((runTrace PipeReader.init loseTrace).2.filter fun b => !b.isEmpty).flatten
      ≠ (producedOf loseTrace).flatten := by decide

/-- C1 (amended): for every interleaving of produced chunks and `read()`
calls starting from a fresh reader, the concatenation of the non-empty
`read()` results, followed by the data still pending inside the reader (the
staged chunk, then the overflow chunks in arrival order), equals the
concatenation of the produced chunks: no chunk is dropped and no reordering
occurs. Plain equality between reads and produced data holds exactly when no
pending data remains, which a trailing overflow chunk can prevent even under
unboundedly many further reads. -/
theorem read_concat_no_loss (es : List RWEvent) :
    ((runTrace PipeReader.init es).2.filter fun b => !b.isEmpty).flatten
        ++ (runTrace PipeReader.init es).1.pending
      = (producedOf es).flatten := by
  rw [flatten_filter_nonempty, runTrace_pending]
  rfl

/-- Worker state for the C3 counterexample: stop has been requested, but the
pipe is still open (`eof = false`) and has no data, so the worker is blocked
inside `readline`. -/
def blockedWorker : Worker :=
  { reader := PipeReader.init.stop, pipe := { lines := [], eof := false },
    pipeClosed := false, phase := WPhase.reading }

/-- C3 counterexample: with the stop flag already set but the pipe open and
producing no data, the worker thread is blocked in `readline` and its state
is a fixpoint of the scheduler step: the stop flag is never observed and the
pipe is never closed, refuting the claimed bounded cancellation latency for
an open, silent pipe. -/
theorem stop_unobserved_while_pipe_open :
    Worker.step blockedWorker = blockedWorker ∧
      blockedWorker.reader.stopSignal = true ∧
      blockedWorker.pipeClosed = false ∧
      blockedWorker.phase ≠ WPhase.done := by decide

/-- C3 (amended): once the pipe has reached end-of-file (so `readline`
returns the empty string and the for-loop exits), a worker whose stop flag is
set observes the flag within one loop iteration — read attempt, sleep, stop
check — and closes the pipe; while the pipe is open and producing no data the
worker is blocked in `readline` and stop is not observed. -/
theorem stop_observed_after_eof (w : Worker)
    (hr : w.phase = WPhase.reading) (hl : w.pipe.lines = [])
    (he : w.pipe.eof = true) (hs : w.reader.stopSignal = true) :
    (Worker.step (Worker.step (Worker.step w))).phase = WPhase.done ∧
      (Worker.step (Worker.step (Worker.step w))).pipeClosed = true := by
  obtain ⟨rd, ⟨lines, eof⟩, pc, ph⟩ := w
  simp only at hr hl he hs
  subst hr hl he
  simp [Worker.step, hs]

/-- Witness for the C3 theorem at a concrete worker whose pipe is at
end-of-file and whose stop flag is set. -/
theorem stop_observed_after_eof_witness :
    (Worker.step (Worker.step (Worker.step
      { reader := PipeReader.init.stop, pipe := { lines := [], eof := true },
        pipeClosed := false, phase := WPhase.reading }))).phase = WPhase.done ∧
    (Worker.step (Worker.step (Worker.step
      { reader := PipeReader.init.stop, pipe := { lines := [], eof := true },
        pipeClosed := false, phase := WPhase.reading }))).pipeClosed = true :=
  stop_observed_after_eof _ rfl rfl rfl rfl

/-- C9: `read()` never blocks. If the single slot is occupied it returns the
staged chunk and clears the slot; if the slot is empty it returns the empty
chunk and leaves the reader unchanged, and any number of repeated `read()`
calls with no new data all return the empty chunk with no state change. -/
theorem read_never_blocks (r : PipeReader) (b : Chunk) (n : Nat) :
    (r.queue = some b → r.read = (b, { r with queue := none })) ∧
      (r.queue = none →
        r.read = ([], r) ∧ r.readN n = (r, List.replicate n [])) := by
  constructor
  · intro hq
    simp [PipeReader.read, hq]
  · intro hq
    have hread : r.read = ([], r) := by simp [PipeReader.read, hq]
    refine ⟨hread, ?_⟩
    induction n with
    | zero => rfl
    | succ n ih =>
      simp [PipeReader.readN, hread, ih, List.replicate_succ]

/-- Witness for the C9 theorem: a full reader returns and clears its staged
chunk, and a fresh empty reader returns the empty chunk three times without
any state change. -/
theorem read_never_blocks_witness :
    ({ queue := some ['a'], overflowBuffer := [], stopSignal := false
        : PipeReader }.read
      = (['a'], { queue := none, overflowBuffer := [], stopSignal := false })) ∧
    (PipeReader.init.read = ([], PipeReader.init) ∧
      PipeReader.init.readN 3 = (PipeReader.init, List.replicate 3 [])) :=
  ⟨(read_never_blocks
      { queue := some ['a'], overflowBuffer := [], stopSignal := false }
      ['a'] 3).1 rfl,
   (read_never_blocks PipeReader.init ['a'] 3).2 rfl⟩

/-- Job whose subprocess is still running: process handle present, exit code
not yet reported. -/
def runningJob : Job :=
  { command := "python3 myScript.py", flags := 32, pid := some 1234,
    process := some { pid := 1234, returncode := none },
    pollMillis := some 120, pollTimerRunning := true,
    inputCallback := true, errorCallback := true, terminateCallback := true,
    stdoutReader := some PipeReader.init, stderrReader := some PipeReader.init }

/-- Job whose subprocess has exited naturally with code 0 but whose exit has
not yet been observed: `Popen.poll` now reports `some 0`. -/
def exitedJob : Job :=
  { command := "python3 myScript.py", flags := 32, pid := some 1234,
    process := some { pid := 1234, returncode := some 0 },
    pollMillis := some 120, pollTimerRunning := true,
    inputCallback := true, errorCallback := true, terminateCallback := true,
    stdoutReader := some PipeReader.init, stderrReader := some PipeReader.init }

/-- C2: evaluation of the code at the failing input. For a Job whose child
has already exited with code 0, each of two successive `poll()` calls
dispatches the terminate callback again — two `onExit` invocations in total —
because the exit path of `poll()` never clears `self._process`, so the claim
that `onExit` fires exactly once per Job lifetime fails on the natural-exit
path. -/
theorem exit_callback_refires_on_poll :
    countExit ((exitedJob.poll).2 ++ ((exitedJob.poll).1.poll).2) = 2 := by
  decide

/-- C4: `Job.terminate` returns `None` on every path — both the early nop
return and the fall-through after a successful kill — because the
`wx.Process.Kill` result check is commented out; no boolean success or
failure value is ever reported to the caller, contradicting the docstring
of the method. -/
theorem terminate_returns_none (j : Job) (sig kf : Int) :
    (j.terminate sig kf).2 = none := by
  unfold Job.terminate
  split <;> rfl

/-- C8: calling `terminate()` on a Job that was never started (any command,
flags, callbacks, poll interval, and any signal and kill-scope arguments) is
a nop: `isRunning` is false because the process handle is absent, so the
method returns immediately, raising nothing, issuing no effect and leaving
the state unchanged. -/
theorem terminate_never_started_noop (command : String) (flags : Int)
    (tcb icb ecb : Bool) (pm : Option Int) (sig kf : Int) :
    (Job.init command flags tcb icb ecb pm).terminate sig kf
      = ((Job.init command flags tcb icb ecb pm, []), none) := by
  simp [Job.terminate, Job.isRunning, Job.init]

theorem onTerminate_fst_process (j : Job) (c : Option Int) :
    (j.onTerminate c).1.process = j.process ∧ (j.onTerminate c).1.pid = j.pid := by
  simp only [Job.onTerminate]
  split_ifs <;> simp

theorem poll_preserves_handle (j : Job) :
    (j.poll).1.process = j.process ∧ (j.poll).1.pid = j.pid := by
  cases hp : j.process with
  | none => simp [Job.poll, hp]
  | some p =>
    simp only [Job.poll, hp]
    cases hc : p.returncode with
    | none => split_ifs <;> simp_all
    | some c =>
      split_ifs <;>
        simp_all [onTerminate_fst_process]

theorem poll_noop_of_no_process (j : Job) (hp : j.process = none) :
    j.poll = (j, []) := by
  simp [Job.poll, hp]

/-- C5 counterexample: after `poll()` observes the natural exit of
`exitedJob`, the process handle and pid are still set (the exit path of
`poll()` never clears them), and a further `poll()` is not a nop: it
dispatches effects again. -/
theorem poll_exit_leaves_process :
    (exitedJob.poll).1.process = some { pid := 1234, returncode := some 0 } ∧
      (exitedJob.poll).1.pid = some 1234 ∧
      ((exitedJob.poll).1.poll).2 ≠ [] := by
  decide

/-- C5 (amended): `terminate()` on a running Job clears the process handle
and pid and leaves the Job in a state where `poll()` is a nop; but natural
exit detection inside `poll()` does not clear them — `poll()` always leaves
the process handle and pid exactly as they were, so subsequent polls still
find the process. -/
theorem terminate_clears_process_poll_does_not (j : Job) (sig kf : Int)
    (hrun : j.isRunning = true) :
    ((j.terminate sig kf).1.1.process = none ∧
      (j.terminate sig kf).1.1.pid = none ∧
      (j.terminate sig kf).1.1.poll = ((j.terminate sig kf).1.1, [])) ∧
    ((j.poll).1.process = j.process ∧ (j.poll).1.pid = j.pid) := by
  refine ⟨?_, poll_preserves_handle j⟩
  have h1 : (j.terminate sig kf).1.1.process = none := by
    simp [Job.terminate, hrun]
  have h2 : (j.terminate sig kf).1.1.pid = none := by
    simp [Job.terminate, hrun]
  exact ⟨h1, h2, poll_noop_of_no_process _ h1⟩

/-- Witness for the C5 theorem at a concrete running Job, with `SIGTERM`
(15) and `KILL_NOCHILDREN` (0) arguments. -/
theorem terminate_clears_process_poll_does_not_witness :
    (((runningJob.terminate 15 0).1.1.process = none ∧
      (runningJob.terminate 15 0).1.1.pid = none ∧
      (runningJob.terminate 15 0).1.1.poll
        = ((runningJob.terminate 15 0).1.1, [])) ∧
    ((runningJob.poll).1.process = runningJob.process ∧
      (runningJob.poll).1.pid = runningJob.pid)) :=
  terminate_clears_process_poll_does_not runningJob 15 0 (by decide)

/-- C6: a `poll()` call on a Job with no process handle is a nop (state
unchanged, nothing dispatched); on a Job with a process handle the exit
status is read first without blocking, and the dispatched effects of the
call are ordered by stage: staged stdout data to the input callback first,
then staged stderr data to the error callback, then the exit notification
last. -/
theorem poll_noop_and_dispatch_order (j : Job) :
    (j.process = none → j.poll = (j, [])) ∧
      (j.poll).2.Pairwise (fun a b => dispatchStage a ≤ dispatchStage b) := by
  refine ⟨poll_noop_of_no_process j, ?_⟩
  cases hp : j.process with
  | none => simp [poll_noop_of_no_process j hp]
  | some p =>
    simp only [Job.poll, hp]
    cases hc : p.returncode with
    | none =>
      split_ifs <;>
        simp_all [dispatchStage, List.pairwise_cons]
    | some c =>
      simp only [Job.onTerminate]
      split_ifs <;>
        simp_all [dispatchStage, List.pairwise_cons, List.pairwise_append]

/-- Witness for the C6 theorem: a never-started Job polls to a nop, and a
Job with a process handle, staged data on both readers and a reported exit
code dispatches its effects in stage order. -/
theorem poll_noop_and_dispatch_order_witness :
    ((Job.init "python3 myScript.py" 32 true true true none).poll
        = (Job.init "python3 myScript.py" 32 true true true none, [])) ∧
      (exitedJob.poll).2.Pairwise
        (fun a b => dispatchStage a ≤ dispatchStage b) :=
  ⟨(poll_noop_and_dispatch_order
      (Job.init "python3 myScript.py" 32 true true true none)).1 rfl,
   (poll_noop_and_dispatch_order exitedJob).2⟩

/-- C7: on any Job whose process is running — here, any Job freshly returned
by `start()` with the nonzero pid the operating system assigns — assigning
`command` (and likewise `flags`) fails synchronously with the invalid-state
error and no new state is produced, so the stored value is unchanged; on any
Job whose process handle is absent (idle before `start()`, or terminated),
the assignment succeeds and updates exactly the stored value. -/
theorem command_flags_setter_contract (j : Job) (newPid : Int) (v : String)
    (fl : Int) :
    (newPid ≠ 0 →
      ((j.start newPid).1.1.setCommand v
          = Except.error
              "Cannot set property command if the subprocess is running!" ∧
        (j.start newPid).1.1.setFlags fl
          = Except.error
              "Cannot set property flags if the subprocess is running!")) ∧
    (j.process = none →
      (j.setCommand v = Except.ok { j with command := v } ∧
        j.setFlags fl = Except.ok { j with flags := fl })) := by
  constructor
  · intro hpid
    have hrun : (j.start newPid).1.1.isRunning = true := by
      simp only [Job.start, Job.isRunning]
      split_ifs <;> simp_all [bne_iff_ne]
    simp [Job.setCommand, Job.setFlags, hrun]
  · intro hp
    have hrun : j.isRunning = false := by
      simp [Job.isRunning, hp]
    simp [Job.setCommand, Job.setFlags, hrun]

/-- Witness for the C7 theorem: starting an idle Job with pid 1234 makes both
setters fail with the invalid-state errors, and on the idle Job itself both
setters succeed. -/
theorem command_flags_setter_contract_witness :
    ((((Job.init "python3 myScript.py" 32 true true true none).start
          1234).1.1.setCommand "python3 other.py"
        = Except.error
            "Cannot set property command if the subprocess is running!" ∧
      ((Job.init "python3 myScript.py" 32 true true true none).start
          1234).1.1.setFlags 16
        = Except.error
            "Cannot set property flags if the subprocess is running!") ∧
    ((Job.init "python3 myScript.py" 32 true true true none).setCommand
          "python3 other.py"
        = Except.ok { Job.init "python3 myScript.py" 32 true true true none
                        with command := "python3 other.py" } ∧
      (Job.init "python3 myScript.py" 32 true true true none).setFlags 16
        = Except.ok { Job.init "python3 myScript.py" 32 true true true none
                        with flags := 16 })) :=
  ⟨(command_flags_setter_contract
      (Job.init "python3 myScript.py" 32 true true true none)
      1234 "python3 other.py" 16).1 (by decide),
   (command_flags_setter_contract
      (Job.init "python3 myScript.py" 32 true true true none)
      1234 "python3 other.py" 16).2 rfl⟩

/-- C10: calling `start()` on a Job whose process is already running is not
rejected: no error is raised, a second process is spawned, and the process
handle, pid and both reader references are overwritten with fresh ones,
while the effect log shows that neither a kill request for the previous
process nor a stop signal for either previous reader is ever issued — the
first process is silently orphaned. -/
theorem start_while_running_orphans (j : Job) (p : ProcHandle) (newPid : Int)
    (hp : j.process = some p) :
    (j.start newPid).2 = newPid ∧
      (j.start newPid).1.2 = [Effect.spawnProc newPid] ∧
      (j.start newPid).1.1.process
        = some { pid := newPid, returncode := none } ∧
      (j.start newPid).1.1.pid = some newPid ∧
      (j.start newPid).1.1.stdoutReader = some PipeReader.init ∧
      (j.start newPid).1.1.stderrReader = some PipeReader.init ∧
      Effect.killProc p.pid ∉ (j.start newPid).1.2 ∧
      Effect.stopStdoutReader ∉ (j.start newPid).1.2 ∧
      Effect.stopStderrReader ∉ (j.start newPid).1.2 := by
  simp only [Job.start]
  split_ifs <;> simp

/-- Witness for the C10 theorem: restarting `runningJob` with a second pid
5678 overwrites the handle, pid and readers and issues only the spawn. -/
theorem start_while_running_orphans_witness :
    (runningJob.start 5678).2 = 5678 ∧
      (runningJob.start 5678).1.2 = [Effect.spawnProc 5678] ∧
      (runningJob.start 5678).1.1.process
        = some { pid := 5678, returncode := none } ∧
      (runningJob.start 5678).1.1.pid = some 5678 ∧
      (runningJob.start 5678).1.1.stdoutReader = some PipeReader.init ∧
      (runningJob.start 5678).1.1.stderrReader = some PipeReader.init ∧
      Effect.killProc (1234 : Int) ∉ (runningJob.start 5678).1.2 ∧
      Effect.stopStdoutReader ∉ (runningJob.start 5678).1.2 ∧
      Effect.stopStderrReader ∉ (runningJob.start 5678).1.2 :=
  start_while_running_orphans runningJob
    { pid := 1234, returncode := none } 5678 rfl
